import Mathlib

/-!
Verification of the Bacolod waste-segregation agent-based model
(`agents/household_agent.py`, `agents/barangay_agent.py`,
`agents/bacolod_model.py`, `barangay_config.py`).

Real-number arithmetic of the source is modelled over `ℚ`; every random
draw the source takes (`random.random()`, `random.uniform(..)`,
`random.gauss(..)`) is passed in as an explicit parameter.  Mutation is
modelled by functions returning updated records.
-/

/-- A zone (`BarangayAgent.__init__`).  The `local_allocation_ratios`
dict is flattened into the three fields `ratio_enf`, `ratio_inc`,
`ratio_iec`. -/
structure Barangay where
  unique_id : ℕ
  n_households : ℕ
  compliance_rate : ℚ
  total_households : ℕ
  compliant_count : ℕ
  iec_fund : ℚ
  enf_fund : ℚ
  inc_fund : ℚ
  fine_amount : ℚ
  enforcement_intensity : ℚ
  iec_intensity : ℚ
  incentive_val : ℚ
  local_annual_budget : ℚ
  local_quarterly_budget : ℚ
  enforcer_salary_cost : ℚ
  ratio_enf : ℚ
  ratio_inc : ℚ
  ratio_iec : ℚ
  current_cash_on_hand : ℚ
  active_enforcers_count : ℤ
  deriving DecidableEq

/-- A household (`HouseholdAgent.__init__`): TPB psychological scalars,
behavioral coefficients from the behavior profile, compliance flag. -/
structure Household where
  income_level : ℕ
  is_compliant : Bool
  barangay_id : ℕ
  w_a : ℚ
  w_sn : ℚ
  w_pbc : ℚ
  c_effort_base : ℚ
  attitude_decay_rate : ℚ
  attitude : ℚ
  sn : ℚ
  pbc : ℚ
  utility : ℚ
  redeemed_this_quarter : Bool
  deriving DecidableEq

/-- Global model state (`BacolodModel` fields used by the claims).
Enforcement agents are represented in the schedule by the id of the
barangay they are bound to (their fresh unique ids and grid positions
are not read by any operation modelled here). -/
structure ModelState where
  quarterly_budget : ℚ
  current_budget : ℚ
  barangays : List Barangay
  households : List Household
  enforcers : List ℕ
  recent_fines_collected : ℚ
  total_fines_collected : ℚ
  total_enforcement_cost : ℚ
  total_iec_cost : ℚ
  total_incentives_distributed : ℚ
  deriving DecidableEq

/-- `HouseholdAgent.update_social_norms`.  The neighbour compliance
fraction (a spatial query in the source) and the zone's enforcement
intensity / compliance rate are passed in; the `if self.barangay`
guards are taken in the with-zone case, since every household is
assigned a zone at model initialization. -/
def update_social_norms (hh : Household) (local_compliance enf_int current_compliance : ℚ) :
    Household :=
  let authority_boost := enf_int * 0.50
  let target_sn := min 0.92 (local_compliance + authority_boost)
  let sn1 :=
    if target_sn < hh.sn then
      if current_compliance > 0.70 then 0.90 * hh.sn + 0.10 * target_sn
      else if current_compliance > 0.40 then 0.85 * hh.sn + 0.15 * target_sn
      else target_sn
    else target_sn
  let sn2 := if sn1 > 0.95 then (0.95 : ℚ) else sn1
  { hh with sn := sn2 }

/-- `HouseholdAgent.update_attitude`.  `r1` is the
`random.uniform(0.005, 0.02)` entropy draw, `r2` the
`random.uniform(0.005, 0.015)` complacency draw. -/
def update_attitude (hh : Household) (current_compliance iec_int enf_int r1 r2 : ℚ) :
    Household :=
  let decay_damper : ℚ :=
    if current_compliance > 0.70 then 0.05
    else if current_compliance > 0.40 then 0.50 else 1.0
  let a1 := hh.attitude - hh.attitude_decay_rate * decay_damper
  let a2 := if a1 > 0.95 then a1 - r1 else a1
  let iec_eff := if iec_int > 1.0 then iec_int / 100.0 else iec_int
  let boost := iec_eff * 0.025 * (1.0 + enf_int * 3.0)
  let a3 := a2 + boost
  let a4 :=
    if enf_int > 0.8 then
      if current_compliance > 0.40 then a3 + 0.0001 else a3 - 0.002
    else a3
  let a5 :=
    if current_compliance > 0.70 then
      let a5a := if a4 < 0.80 then a4 + 0.003 else a4
      if a5a > 0.90 then a5a - r2 else a5a
    else a4
  { hh with attitude := max 0 (min 0.95 a5) }

/-- `HouseholdAgent.make_decision`.  `epsilon` is the
`random.gauss(0, 0.05)` draw and `errDraw` the human-error
`random.random()` draw; fine, detection probability and incentive come
from the household's zone. -/
def make_decision (hh : Household) (b : Barangay) (epsilon errDraw : ℚ) : Household :=
  let gamma : ℚ := if hh.income_level = 1 then 1.5 else if hh.income_level = 2 then 1.0 else 0.8
  let fine := b.fine_amount
  let prob_detection := b.enforcement_intensity
  let incentive := b.incentive_val
  let monetary_impact := incentive + fine * prob_detection
  let c_net := hh.c_effort_base - gamma * monetary_impact / 2000.0
  let utility :=
    hh.w_a * hh.attitude + hh.w_sn * hh.sn + hh.w_pbc * hh.pbc - c_net + epsilon
  let compliant0 : Bool := decide (utility > 0.0)
  let compliant : Bool := if compliant0 && decide (errDraw < 0.01) then false else compliant0
  { hh with utility := utility, is_compliant := compliant }

/-- `HouseholdAgent.get_fined`: utility and attitude penalties (note:
no clamping), plus the model-level fine counters. -/
def get_fined (hh : Household) (m : ModelState) : Household × ModelState :=
  ({ hh with utility := hh.utility - 0.5, attitude := hh.attitude - 0.10 },
   { m with total_fines_collected := m.total_fines_collected + 500,
            recent_fines_collected := m.recent_fines_collected + 500 })

/-- `BarangayAgent.give_reward`: returns the updated zone, the updated
global incentive counter, and the success flag. -/
def give_reward (b : Barangay) (amount total_inc : ℚ) : Barangay × ℚ × Bool :=
  if b.current_cash_on_hand ≥ amount then
    ({ b with current_cash_on_hand := b.current_cash_on_hand - amount },
     total_inc + amount, true)
  else (b, total_inc, false)

/-- `HouseholdAgent.attempt_redemption`.  `draw` is the
`random.random()` redemption draw; `total_inc` is the model's
`total_incentives_distributed` counter. -/
def attempt_redemption (hh : Household) (b : Barangay) (draw total_inc : ℚ) :
    Household × Barangay × ℚ :=
  if hh.is_compliant && !hh.redeemed_this_quarter then
    if draw < 0.10 then
      let reward_amount := b.incentive_val
      let res := give_reward b reward_amount total_inc
      if res.2.2 then
        ({ hh with redeemed_this_quarter := true, attitude := hh.attitude + 0.02 },
         res.1, res.2.1)
      else (hh, res.1, res.2.1)
    else (hh, b, total_inc)
  else (hh, b, total_inc)

/-- Concrete zone used for the C4 counterexample: enforcement intensity
0.4, incentive 200 per head, fine 500, giving a positive monetary
impact of 400. -/
def bC4 : Barangay :=
  { unique_id := 1, n_households := 100, compliance_rate := 0.5,
    total_households := 100, compliant_count := 50,
    iec_fund := 0, enf_fund := 0, inc_fund := 0, fine_amount := 500,
    enforcement_intensity := 0.4, iec_intensity := 0, incentive_val := 200,
    local_annual_budget := 0, local_quarterly_budget := 0,
    enforcer_salary_cost := 7000, ratio_enf := 0.50, ratio_inc := 0.30,
    ratio_iec := 0.20, current_cash_on_hand := 0, active_enforcers_count := 0 }

/-- Concrete income-tier-1 household for the C4 counterexample. -/
def hhC4tier1 : Household :=
  { income_level := 1, is_compliant := false, barangay_id := 1,
    w_a := 0.4, w_sn := 0.3, w_pbc := 0.3, c_effort_base := 0.70,
    attitude_decay_rate := 0.005, attitude := 0.5, sn := 0.5, pbc := 0.5,
    utility := 0, redeemed_this_quarter := false }

/-- The identical household with income tier 3. -/
def hhC4tier3 : Household := { hhC4tier1 with income_level := 3 }

/-- Claim C4 as stated is false: with the same attitude, norm, control,
coefficients, zone and random draws, and a positive monetary impact,
the income-tier-1 household is MORE likely to comply, not less — here
the tier-1 household complies while the tier-3 household does not. -/
theorem C4_counterexample :
    0 < bC4.incentive_val + bC4.fine_amount * bC4.enforcement_intensity ∧
    (make_decision hhC4tier1 bC4 0 (1/2)).is_compliant = true ∧
    (make_decision hhC4tier3 bC4 0 (1/2)).is_compliant = false := by
  refine ⟨by norm_num [bC4], ?_, ?_⟩ <;>
    simp [make_decision, hhC4tier1, hhC4tier3, bC4] <;> norm_num

/-- Claim C4, amended: the income-sensitivity coefficient is 1.5 for
tier 1 and 0.8 for tier 3, so whenever the monetary impact is positive
the tier-1 household complies whenever the otherwise-identical tier-3
household does (tier 1 is at least as likely to comply, the reverse of
the claimed direction). -/
theorem C4_amended (hh : Household) (b : Barangay) (eps err : ℚ)
    (hM : 0 < b.incentive_val + b.fine_amount * b.enforcement_intensity)
    (h3 : (make_decision { hh with income_level := 3 } b eps err).is_compliant = true) :
    (make_decision { hh with income_level := 1 } b eps err).is_compliant = true := by
  simp only [make_decision] at h3 ⊢
  by_cases herr : err < 0.01
  · simp only [herr, decide_True, Bool.and_true] at h3 ⊢
    by_cases h3pos : hh.w_a * hh.attitude + hh.w_sn * hh.sn + hh.w_pbc * hh.pbc -
        (hh.c_effort_base - (if (3 : ℕ) = 1 then (1.5 : ℚ) else if (3 : ℕ) = 2 then 1.0 else 0.8) *
          (b.incentive_val + b.fine_amount * b.enforcement_intensity) / 2000.0) + eps > 0.0
    · simp only [h3pos, decide_True, if_true] at h3
      exact absurd h3 (by simp)
    · simp only [h3pos, decide_False, Bool.false_eq_true, if_false] at h3
  · simp only [herr, decide_False, Bool.and_false, Bool.false_eq_true, if_false,
      decide_eq_true_eq] at h3 ⊢
    have h3' : hh.w_a * hh.attitude + hh.w_sn * hh.sn + hh.w_pbc * hh.pbc -
        (hh.c_effort_base - (0.8 : ℚ) *
          (b.incentive_val + b.fine_amount * b.enforcement_intensity) / 2000.0) + eps > 0.0 := by
      simpa using h3
    have : (0.8 : ℚ) * (b.incentive_val + b.fine_amount * b.enforcement_intensity) / 2000.0 ≤
        (1.5 : ℚ) * (b.incentive_val + b.fine_amount * b.enforcement_intensity) / 2000.0 := by
      have := le_of_lt hM
      nlinarith
    simp only [show (1 : ℕ) = 1 from rfl, if_true]
    norm_num
    linarith [h3']

/-- Household used to witness the amended C4 monotonicity. -/
def hhC4w : Household := { hhC4tier1 with c_effort_base := 0.5 }

/-- Witness for C4_amended at a concrete input where the tier-3
household complies. -/
theorem C4_amended_witness :
    (make_decision { hhC4w with income_level := 1 } bC4 0 (1/2)).is_compliant = true :=
  C4_amended hhC4w bC4 0 (1/2) (by norm_num [bC4])
    (by simp [make_decision, hhC4w, hhC4tier1, bC4]; norm_num)

/-- Empty model state used by several concrete evaluations. -/
def mEmpty : ModelState :=
  { quarterly_budget := 375000, current_budget := 1500000, barangays := [],
    households := [], enforcers := [], recent_fines_collected := 0,
    total_fines_collected := 0, total_enforcement_cost := 0, total_iec_cost := 0,
    total_incentives_distributed := 0 }

/-- Household with a low (but legal) attitude of 0.05, as arises after
sustained attitude decay. -/
def hhC5 : Household := { hhC4tier1 with attitude := 0.05 }

/-- Claim C5 as stated is false: `get_fined` subtracts 0.10 from the
attitude without clamping, so a household whose attitude is 0.05
(inside the declared range) leaves get_fined with attitude -0.05,
outside [0,1]. -/
theorem C5_counterexample :
    0 ≤ hhC5.attitude ∧ hhC5.attitude ≤ 1 ∧ (get_fined hhC5 mEmpty).1.attitude < 0 := by
  refine ⟨by norm_num [hhC5, hhC4tier1], by norm_num [hhC5, hhC4tier1], ?_⟩
  norm_num [get_fined, hhC5, hhC4tier1]

/-- Claim C5, amended: `update_attitude` always leaves the attitude in
[0, 0.95]; `update_social_norms` leaves the social norm in [0, 0.95]
whenever the inputs are non-negative; `attempt_redemption` keeps the
attitude within [0, 1] when it starts at most 0.98; but `get_fined`
subtracts 0.10 from the attitude with no clamping, so its result can
leave the declared range. -/
theorem C5_amended (hh : Household) (m : ModelState) (b : Barangay)
    (cr iec enf r1 r2 lc cr2 draw tinc : ℚ)
    (hsn : 0 ≤ hh.sn) (hlc : 0 ≤ lc) (henf : 0 ≤ enf)
    (hatt0 : 0 ≤ hh.attitude) (hatt1 : hh.attitude ≤ 0.98) :
    (0 ≤ (update_attitude hh cr iec enf r1 r2).attitude ∧
      (update_attitude hh cr iec enf r1 r2).attitude ≤ 0.95) ∧
    (0 ≤ (update_social_norms hh lc enf cr2).sn ∧
      (update_social_norms hh lc enf cr2).sn ≤ 0.95) ∧
    (0 ≤ (attempt_redemption hh b draw tinc).1.attitude ∧
      (attempt_redemption hh b draw tinc).1.attitude ≤ 1) ∧
    (get_fined hh m).1.attitude = hh.attitude - 0.10 := by
  have htgt : 0 ≤ min (0.92 : ℚ) (lc + enf * 0.50) :=
    le_min (by norm_num) (by nlinarith)
  refine ⟨⟨?_, ?_⟩, ⟨?_, ?_⟩, ⟨?_, ?_⟩, ?_⟩
  · simp only [update_attitude]
    exact le_max_left 0 _
  · simp only [update_attitude]
    exact max_le (by norm_num) (min_le_left _ _)
  · simp only [update_social_norms]
    split_ifs <;> nlinarith [htgt, hsn]
  · simp only [update_social_norms]
    have hcap : ∀ y : ℚ, (if y > 0.95 then (0.95 : ℚ) else y) ≤ 0.95 := by
      intro y
      split_ifs with h
      · norm_num
      · linarith [not_lt.mp h]
    exact hcap _
  · simp only [attempt_redemption, give_reward]
    split_ifs <;> simp <;> linarith
  · simp only [attempt_redemption, give_reward]
    split_ifs <;> simp <;> linarith
  · simp [get_fined]

/-- Witness for C5_amended at a concrete household and zone. -/
theorem C5_amended_witness :
    (0 ≤ (update_attitude hhC4tier1 0.3 0.1 0.2 0.01 0.01).attitude ∧
      (update_attitude hhC4tier1 0.3 0.1 0.2 0.01 0.01).attitude ≤ 0.95) ∧
    (0 ≤ (update_social_norms hhC4tier1 0.25 0.2 0.3).sn ∧
      (update_social_norms hhC4tier1 0.25 0.2 0.3).sn ≤ 0.95) ∧
    (0 ≤ (attempt_redemption hhC4tier1 bC4 0.5 0).1.attitude ∧
      (attempt_redemption hhC4tier1 bC4 0.5 0).1.attitude ≤ 1) ∧
    (get_fined hhC4tier1 mEmpty).1.attitude = hhC4tier1.attitude - 0.10 :=
  C5_amended hhC4tier1 mEmpty bC4 0.3 0.1 0.2 0.01 0.01 0.25 0.3 0.5 0
    (by norm_num [hhC4tier1]) (by norm_num) (by norm_num)
    (by norm_num [hhC4tier1]) (by norm_num [hhC4tier1])

/-- Claim C10: none of the per-tick household operations
(update_attitude, update_social_norms, make_decision,
attempt_redemption) nor get_fined ever writes the perceived-behavioral-
control scalar `pbc`; it keeps its seeded value for the household's
lifetime. -/
theorem C10_pbc_constant (hh : Household) (b : Barangay) (m : ModelState)
    (cr iec enf r1 r2 lc cr2 eps err draw tinc : ℚ) :
    (update_attitude hh cr iec enf r1 r2).pbc = hh.pbc ∧
    (update_social_norms hh lc enf cr2).pbc = hh.pbc ∧
    (make_decision hh b eps err).pbc = hh.pbc ∧
    (attempt_redemption hh b draw tinc).1.pbc = hh.pbc ∧
    (get_fined hh m).1.pbc = hh.pbc := by
  refine ⟨rfl, rfl, rfl, ?_, rfl⟩
  simp only [attempt_redemption, give_reward]
  split_ifs <;> rfl

/-- `BarangayAgent.get_local_compliance`, as a state update on the
zone record: recompute `total_households`, `compliant_count` and
`compliance_rate` from the households whose `barangay_id` matches.
The source iterates `schedule.agents` and keeps those with a matching
`barangay_id` that carry an `is_compliant` attribute (households). -/
def refresh_compliance (hhs : List Household) (b : Barangay) : Barangay :=
  let mine := hhs.filter (fun h => h.barangay_id = b.unique_id)
  let compliant := (mine.filter (fun h => h.is_compliant)).length
  { b with total_households := mine.length, compliant_count := compliant,
           compliance_rate :=
             if mine.length = 0 then 0 else (compliant : ℚ) / (mine.length : ℚ) }

/-- `BarangayAgent.update_policy`: stack the LGU top-up on top of the
locally funded baseline and derive the saturation-capped intensities. -/
def update_policy (b : Barangay) (lgu_iec_fund lgu_enf_fund lgu_inc_fund : ℚ) : Barangay :=
  let local_enf := b.local_quarterly_budget * b.ratio_enf
  let local_inc := b.local_quarterly_budget * b.ratio_inc
  let local_iec := b.local_quarterly_budget * b.ratio_iec
  let iec_fund := local_iec + lgu_iec_fund
  let enf_fund := local_enf + lgu_enf_fund
  let inc_fund := local_inc + lgu_inc_fund
  let saturation_target : ℚ :=
    if 0 < b.n_households then (b.n_households : ℚ) * 650.0 else 375000.0
  let iec_intensity := min 1.0 (iec_fund / saturation_target)
  let enforcement_intensity := min 1.0 (enf_fund / 375000.0)
  let incentive_val : ℚ :=
    if 0 < b.n_households then inc_fund / (b.n_households : ℚ) else 0
  { b with iec_fund := iec_fund, enf_fund := enf_fund, inc_fund := inc_fund,
           current_cash_on_hand := inc_fund,
           iec_intensity := iec_intensity,
           enforcement_intensity := enforcement_intensity,
           incentive_val := incentive_val }

/-- `BacolodModel.calculate_costs`: daily fixed cost comes off the
running balance, the cost counters accumulate, and the recently
collected fines are added back to the balance before the recent-fines
counter is reset. -/
def calculate_costs (m : ModelState) : ModelState :=
  let total_iec_alloc := (m.barangays.map Barangay.iec_fund).sum
  let total_enf_alloc := (m.barangays.map Barangay.enf_fund).sum
  let daily_fixed_cost := (total_iec_alloc + total_enf_alloc) / 90.0
  { m with total_enforcement_cost := m.total_enforcement_cost + total_enf_alloc / 90.0,
           total_iec_cost := m.total_iec_cost + total_iec_alloc / 90.0,
           current_budget := m.current_budget - daily_fixed_cost + m.recent_fines_collected,
           recent_fines_collected := 0 }

/-- Python `int()`: truncation toward zero of a rational. -/
def pyInt (q : ℚ) : ℤ := if 0 ≤ q then ⌊q⌋ else ⌈q⌉

/-- Remove the first occurrence of `x` from a list. -/
def removeFirstOcc (x : ℕ) : List ℕ → List ℕ
  | [] => []
  | y :: ys => if y = x then ys else y :: removeFirstOcc x ys

/-- Remove the first `n` occurrences of `x` from a list (the staffing
algorithm removes the first `diff` enforcers of the zone from the
schedule). -/
def removeOccs (x : ℕ) : ℕ → List ℕ → List ℕ
  | 0, l => l
  | n + 1, l => removeFirstOcc x (removeOccs x n l)

/-- `BacolodModel.adjust_enforcement_agents`.  `enforcers` is the
schedule's enforcement-agent population, each represented by the id of
its zone; `draw` is the `self.random.random()` stochastic-rounding
draw.  Returns the updated zone (its `active_enforcers_count` is set to
the target) together with the updated population. -/
def adjust_enforcement_agents (enforcers : List ℕ) (b : Barangay) (draw : ℚ) :
    Barangay × List ℕ :=
  let potential_enforcers := b.enf_fund / b.enforcer_salary_cost
  let num_guaranteed := pyInt potential_enforcers
  let remainder_prob := potential_enforcers - (num_guaranteed : ℚ)
  let extra_agent : ℤ := if draw < remainder_prob then 1 else 0
  let target_count := num_guaranteed + extra_agent
  let current_count : ℤ := (enforcers.count b.unique_id : ℤ)
  let new_enforcers :=
    if current_count < target_count then
      enforcers ++ List.replicate (target_count - current_count).toNat b.unique_id
    else if target_count < current_count then
      removeOccs b.unique_id (current_count - target_count).toNat enforcers
    else enforcers
  ({ b with active_enforcers_count := target_count }, new_enforcers)

/-- The allocation scale factor of `BacolodModel.apply_action`:
quarterly budget over total desire, zero when the total desire is not
positive. -/
def scale_factor (quarterly_budget total_desire : ℚ) : ℚ :=
  if total_desire > 0 then quarterly_budget / total_desire else 0

/-- Per-zone loop of the 21-length branch of
`BacolodModel.apply_action`: raw AI allocation, the 600-per-household
anti-dumping cap, `update_policy`, then enforcement staffing (one
random draw per zone, consumed from `draws`). -/
def processZones21 (action : List ℚ) (scale : ℚ) :
    ℕ → List Barangay → List ℚ → List ℕ → List Barangay × List ℕ
  | _, [], _, enf => ([], enf)
  | i, b :: bs, draws, enf =>
    let raw_iec := action.getD (i * 3) 0 * scale
    let raw_enf := action.getD (i * 3 + 1) 0 * scale
    let raw_inc := action.getD (i * 3 + 2) 0 * scale
    let max_budget := (b.n_households : ℚ) * 600.0
    let total_proposed := raw_iec + raw_enf + raw_inc
    let finals :=
      if total_proposed > max_budget then
        let reducer := max_budget / total_proposed
        (raw_iec * reducer, raw_enf * reducer, raw_inc * reducer)
      else (raw_iec, raw_enf, raw_inc)
    let b1 := update_policy b finals.1 finals.2.1 finals.2.2
    let adj := adjust_enforcement_agents enf b1 (draws.getD 0 0)
    let rest := processZones21 action scale (i + 1) bs (draws.drop 1) adj.2
    (adj.1 :: rest.1, rest.2)

/-- Per-zone loop of the 3-length branch of
`BacolodModel.apply_action`: needy zones share the three global
allocations in proportion to household count, the rest get a zero
top-up; every zone then has its enforcement staffing adjusted. -/
def processZones3 (allNeedy : Bool) (tIec tEnf tInc : ℚ)
    (total_needy_households needyCount : ℕ) :
    List Barangay → List ℚ → List ℕ → List Barangay × List ℕ
  | [], _, enf => ([], enf)
  | b :: bs, draws, enf =>
    let isNeedy := allNeedy || decide (b.compliance_rate < 0.80)
    let b1 :=
      if isNeedy then
        let share : ℚ :=
          if 0 < total_needy_households then
            (b.n_households : ℚ) / (total_needy_households : ℚ)
          else 1 / (needyCount : ℚ)
        update_policy b (tIec * share) (tEnf * share) (tInc * share)
      else update_policy b 0 0 0
    let adj := adjust_enforcement_agents enf b1 (draws.getD 0 0)
    let rest := processZones3 allNeedy tIec tEnf tInc total_needy_households needyCount
        bs (draws.drop 1) adj.2
    (adj.1 :: rest.1, rest.2)

/-- The 21-length branch of `BacolodModel.apply_action`. -/
def apply_action21 (m : ModelState) (action : List ℚ) (scale : ℚ) (draws : List ℚ) :
    ModelState :=
  let pr := processZones21 action scale 0 m.barangays draws m.enforcers
  { m with barangays := pr.1, enforcers := pr.2 }

/-- The 3-length branch of `BacolodModel.apply_action`: the needy
subset is computed by calling `get_local_compliance` on each zone
(which refreshes its compliance statistics in place), with fallback to
all zones when none is needy. -/
def apply_action3 (m : ModelState) (total_iec_alloc total_enf_alloc total_inc_alloc : ℚ)
    (draws : List ℚ) : ModelState :=
  let refreshed := m.barangays.map (refresh_compliance m.households)
  let needy := refreshed.filter (fun b => decide (b.compliance_rate < 0.80))
  let needyList := if needy.isEmpty then refreshed else needy
  let total_needy_households := (needyList.map Barangay.n_households).sum
  let pr := processZones3 needy.isEmpty total_iec_alloc total_enf_alloc total_inc_alloc
      total_needy_households needyList.length refreshed draws m.enforcers
  { m with barangays := pr.1, enforcers := pr.2 }

/-- `BacolodModel.apply_action`: dispatch on the length of the policy
decision vector; any other length falls through both branches and the
method returns with no state change and no error. -/
def apply_action (m : ModelState) (action_vector : List ℚ) (draws : List ℚ) : ModelState :=
  if action_vector.length = 21 then
    apply_action21 m action_vector
      (scale_factor m.quarterly_budget action_vector.sum) draws
  else if action_vector.length = 3 then
    apply_action3 m
      (action_vector.getD 0 0 * scale_factor m.quarterly_budget action_vector.sum)
      (action_vector.getD 1 0 * scale_factor m.quarterly_budget action_vector.sum)
      (action_vector.getD 2 0 * scale_factor m.quarterly_budget action_vector.sum)
      draws
  else m

/-- Allocation ratio triple of a local allocation profile
(`barangay_config.ALLOCATION_PROFILES` entries). -/
structure AllocationRatios where
  enf : ℚ
  inc : ℚ
  iec : ℚ
  deriving DecidableEq

/-- `barangay_config.ALLOCATION_PROFILES`. -/
def ALLOCATION_PROFILES : List (String × AllocationRatios) :=
  [("Liangan_East", { enf := 0.25, inc := 0.65, iec := 0.10 }),
   ("Poblacion",    { enf := 0.60, inc := 0.20, iec := 0.20 }),
   ("Babalaya",     { enf := 0.90, inc := 0.05, iec := 0.05 }),
   ("Demologan",    { enf := 0.85, inc := 0.10, iec := 0.05 }),
   ("Binuni",       { enf := 0.40, inc := 0.40, iec := 0.20 }),
   ("Mati",         { enf := 0.30, inc := 0.50, iec := 0.20 }),
   ("Ezperanza",    { enf := 0.50, inc := 0.30, iec := 0.20 })]

/-- The default local allocation ratios set in `BarangayAgent.__init__`
(50% enforcement, 30% incentives, 20% IEC). -/
def default_local_allocation : AllocationRatios := { enf := 0.50, inc := 0.30, iec := 0.20 }

/-- Model state with 500 pesos of fines collected since the last tick. -/
def mC1 : ModelState := { mEmpty with recent_fines_collected := 500 }

/-- Claim C1 as stated is false: `calculate_costs` adds the fines
collected since the last tick back onto the spendable current budget
(here the balance ends 500 above what subtracting only the daily fixed
cost would give). -/
theorem C1_counterexample :
    (calculate_costs mC1).current_budget ≠
      mC1.current_budget -
        (((mC1.barangays.map Barangay.iec_fund).sum +
          (mC1.barangays.map Barangay.enf_fund).sum) / 90.0) := by
  norm_num [calculate_costs, mC1, mEmpty]

/-- Claim C1, amended: each tick `calculate_costs` subtracts the daily
fixed cost (total IEC plus enforcement funds over 90) from the running
balance AND credits the fines collected since the last tick back to
that spendable balance, then zeroes the recent-fines counter; fines
are additionally accumulated in the statistical counters by
`get_fined`. -/
theorem C1_amended (m : ModelState) (hh : Household) :
    (calculate_costs m).current_budget =
      m.current_budget -
        (((m.barangays.map Barangay.iec_fund).sum +
          (m.barangays.map Barangay.enf_fund).sum) / 90.0) +
        m.recent_fines_collected ∧
    (calculate_costs m).recent_fines_collected = 0 ∧
    (calculate_costs m).total_iec_cost =
      m.total_iec_cost + (m.barangays.map Barangay.iec_fund).sum / 90.0 ∧
    (calculate_costs m).total_enforcement_cost =
      m.total_enforcement_cost + (m.barangays.map Barangay.enf_fund).sum / 90.0 ∧
    (calculate_costs m).total_fines_collected = m.total_fines_collected ∧
    (get_fined hh m).2.total_fines_collected = m.total_fines_collected + 500 ∧
    (get_fined hh m).2.recent_fines_collected = m.recent_fines_collected + 500 ∧
    (get_fined hh m).2.current_budget = m.current_budget := by
  simp [calculate_costs, get_fined]

/-- Model state with one zone and one enforcer, used to exercise the
invalid-length branch of apply_action. -/
def mB : ModelState := { mEmpty with barangays := [bC4], enforcers := [1] }

/-- Claim C2 as stated is false: a policy vector of length 2 is neither
rejected with an error nor applied — `apply_action` falls through both
branches and returns with the model state (funds, enforcers, budget)
completely unchanged, indistinguishable from a successful no-op. -/
theorem C2_counterexample : apply_action mB [1, 1] [0.5] = mB := by
  simp [apply_action]

/-- Claim C2, amended: a decision vector whose length is neither 3 nor
21 is silently ignored — no zone's funds are updated, even partially,
and no error of any kind is signalled; only length-3 and length-21
vectors have any effect. -/
theorem C2_amended (m : ModelState) (action draws : List ℚ)
    (h3 : action.length ≠ 3) (h21 : action.length ≠ 21) :
    apply_action m action draws = m := by
  simp [apply_action, h3, h21]

/-- Witness for C2_amended on a concrete length-1 vector. -/
theorem C2_amended_witness : apply_action mEmpty [5] [] = mEmpty :=
  C2_amended mEmpty [5] [] (by norm_num) (by norm_num)

/-- Claim C8: after `update_policy` with non-negative top-ups the three
fund totals conserve the local baseline plus the LGU top-up, both
derived intensities are clamped to [0,1], and every configured
allocation profile's ratios (and the default) sum to 1. -/
theorem C8_budget_conservation (b : Barangay) (liec lenf linc : ℚ)
    (hb : 0 ≤ b.local_quarterly_budget)
    (h1 : 0 ≤ b.ratio_iec) (h2 : 0 ≤ b.ratio_enf) (h3 : 0 ≤ b.ratio_inc)
    (h4 : 0 ≤ liec) (h5 : 0 ≤ lenf) (h6 : 0 ≤ linc) :
    ((update_policy b liec lenf linc).iec_fund +
      (update_policy b liec lenf linc).enf_fund +
      (update_policy b liec lenf linc).inc_fund =
        b.local_quarterly_budget * (b.ratio_iec + b.ratio_enf + b.ratio_inc) +
          (liec + lenf + linc)) ∧
    (0 ≤ (update_policy b liec lenf linc).iec_intensity ∧
      (update_policy b liec lenf linc).iec_intensity ≤ 1) ∧
    (0 ≤ (update_policy b liec lenf linc).enforcement_intensity ∧
      (update_policy b liec lenf linc).enforcement_intensity ≤ 1) ∧
    (∀ p ∈ ALLOCATION_PROFILES, p.2.enf + p.2.inc + p.2.iec = 1) ∧
    default_local_allocation.enf + default_local_allocation.inc +
      default_local_allocation.iec = 1 := by
  refine ⟨?_, ⟨?_, ?_⟩, ⟨?_, ?_⟩, ?_, by norm_num [default_local_allocation]⟩
  · simp only [update_policy]
    ring
  · simp only [update_policy]
    have hfund : 0 ≤ b.local_quarterly_budget * b.ratio_iec + liec :=
      add_nonneg (mul_nonneg hb h1) h4
    split_ifs with hn
    · refine le_min (by norm_num) (div_nonneg hfund ?_)
      positivity
    · exact le_min (by norm_num) (div_nonneg hfund (by norm_num))
  · simp only [update_policy]
    exact le_trans (min_le_left _ _) (by norm_num)
  · simp only [update_policy]
    have hfund : 0 ≤ b.local_quarterly_budget * b.ratio_enf + lenf :=
      add_nonneg (mul_nonneg hb h2) h5
    exact le_min (by norm_num) (div_nonneg hfund (by norm_num))
  · simp only [update_policy]
    exact le_trans (min_le_left _ _) (by norm_num)
  · intro p hp
    fin_cases hp <;> norm_num [ALLOCATION_PROFILES]

/-- Witness for C8 at a concrete zone (quarterly local budget 7500,
Liangan East ratios, LGU top-ups 1000/2000/3000). -/
def bC8 : Barangay :=
  { bC4 with local_quarterly_budget := 7500, ratio_enf := 0.25, ratio_inc := 0.65,
             ratio_iec := 0.10 }

/-- Witness for C8_budget_conservation at bC8. -/
theorem C8_budget_conservation_witness :
    ((update_policy bC8 1000 2000 3000).iec_fund +
      (update_policy bC8 1000 2000 3000).enf_fund +
      (update_policy bC8 1000 2000 3000).inc_fund =
        bC8.local_quarterly_budget * (bC8.ratio_iec + bC8.ratio_enf + bC8.ratio_inc) +
          (1000 + 2000 + 3000)) ∧
    (0 ≤ (update_policy bC8 1000 2000 3000).iec_intensity ∧
      (update_policy bC8 1000 2000 3000).iec_intensity ≤ 1) ∧
    (0 ≤ (update_policy bC8 1000 2000 3000).enforcement_intensity ∧
      (update_policy bC8 1000 2000 3000).enforcement_intensity ≤ 1) ∧
    (∀ p ∈ ALLOCATION_PROFILES, p.2.enf + p.2.inc + p.2.iec = 1) ∧
    default_local_allocation.enf + default_local_allocation.inc +
      default_local_allocation.iec = 1 :=
  C8_budget_conservation bC8 1000 2000 3000 (by norm_num [bC8, bC4])
    (by norm_num [bC8, bC4]) (by norm_num [bC8, bC4]) (by norm_num [bC8, bC4])
    (by norm_num) (by norm_num) (by norm_num)

/-- Removing the first occurrence drops the count of that value by one
(saturating at zero). -/
theorem count_removeFirstOcc (x : ℕ) (l : List ℕ) :
    (removeFirstOcc x l).count x = l.count x - 1 := by
  induction l with
  | nil => rfl
  | cons y ys ih =>
    simp only [removeFirstOcc]
    by_cases h : y = x
    · simp [h, List.count_cons]
    · simp only [if_neg h]
      rw [List.count_cons, List.count_cons, ih]
      simp [h]

/-- Removing the first `n` occurrences drops the count by `n`
(saturating at zero). -/
theorem count_removeOccs (x n : ℕ) (l : List ℕ) :
    (removeOccs x n l).count x = l.count x - n := by
  induction n with
  | zero => rfl
  | succ k ih =>
    simp only [removeOccs, count_removeFirstOcc, ih]
    omega

/-- Claim C9: the quarterly staffing target is the integer part of
enforcement fund over per-enforcer cost, plus one exactly when the
uniform draw falls below the fractional remainder; after the
adjustment the zone's recorded active-enforcer count and the number of
its enforcers in the schedule both equal this target. -/
theorem C9_enforcer_staffing (enforcers : List ℕ) (b : Barangay) (draw : ℚ)
    (hfund : 0 ≤ b.enf_fund) (hcost : 0 < b.enforcer_salary_cost) :
    (adjust_enforcement_agents enforcers b draw).1.active_enforcers_count =
      ⌊b.enf_fund / b.enforcer_salary_cost⌋ +
        (if draw < b.enf_fund / b.enforcer_salary_cost -
            (⌊b.enf_fund / b.enforcer_salary_cost⌋ : ℚ) then 1 else 0) ∧
    ((adjust_enforcement_agents enforcers b draw).2.count b.unique_id : ℤ) =
      ⌊b.enf_fund / b.enforcer_salary_cost⌋ +
        (if draw < b.enf_fund / b.enforcer_salary_cost -
            (⌊b.enf_fund / b.enforcer_salary_cost⌋ : ℚ) then 1 else 0) := by
  have hp : 0 ≤ b.enf_fund / b.enforcer_salary_cost := div_nonneg hfund (le_of_lt hcost)
  have hfl : 0 ≤ ⌊b.enf_fund / b.enforcer_salary_cost⌋ := Int.floor_nonneg.mpr hp
  simp only [adjust_enforcement_agents, pyInt, if_pos hp]
  constructor
  · trivial
  · set t : ℤ := ⌊b.enf_fund / b.enforcer_salary_cost⌋ +
      (if draw < b.enf_fund / b.enforcer_salary_cost -
          (⌊b.enf_fund / b.enforcer_salary_cost⌋ : ℚ) then 1 else 0) with htdef
    have ht : 0 ≤ t := by
      rw [htdef]
      split_ifs <;> omega
    by_cases hlt : (enforcers.count b.unique_id : ℤ) < t
    · rw [if_pos hlt, List.count_append, List.count_replicate_self]
      push_cast
      omega
    · rw [if_neg hlt]
      by_cases hgt : t < (enforcers.count b.unique_id : ℤ)
      · rw [if_pos hgt, count_removeOccs]
        push_cast
        omega
      · rw [if_neg hgt]
        omega

/-- Zone used for the C9 witness: 10000 fund, 7000 per enforcer, so the
guaranteed headcount is 1 with remainder 3/7. -/
def bC9 : Barangay := { bC4 with enf_fund := 10000 }

/-- Witness for C9_enforcer_staffing: with draw 0.2 below the remainder
3/7 the target is 2 and the schedule ends with 2 enforcers of the
zone. -/
theorem C9_enforcer_staffing_witness :
    (adjust_enforcement_agents [1, 2] bC9 0.2).1.active_enforcers_count =
      ⌊bC9.enf_fund / bC9.enforcer_salary_cost⌋ +
        (if (0.2 : ℚ) < bC9.enf_fund / bC9.enforcer_salary_cost -
            (⌊bC9.enf_fund / bC9.enforcer_salary_cost⌋ : ℚ) then 1 else 0) ∧
    ((adjust_enforcement_agents [1, 2] bC9 0.2).2.count bC9.unique_id : ℤ) =
      ⌊bC9.enf_fund / bC9.enforcer_salary_cost⌋ +
        (if (0.2 : ℚ) < bC9.enf_fund / bC9.enforcer_salary_cost -
            (⌊bC9.enf_fund / bC9.enforcer_salary_cost⌋ : ℚ) then 1 else 0) :=
  C9_enforcer_staffing [1, 2] bC9 0.2 (by norm_num [bC9, bC4]) (by norm_num [bC9, bC4])

/-- Staffing adjustment touches only the enforcer count: all budget
fields of the zone are preserved. -/
theorem adjust_preserves_funds (enf : List ℕ) (b : Barangay) (d : ℚ) :
    (adjust_enforcement_agents enf b d).1.iec_fund = b.iec_fund ∧
    (adjust_enforcement_agents enf b d).1.enf_fund = b.enf_fund ∧
    (adjust_enforcement_agents enf b d).1.inc_fund = b.inc_fund ∧
    (adjust_enforcement_agents enf b d).1.local_quarterly_budget = b.local_quarterly_budget ∧
    (adjust_enforcement_agents enf b d).1.ratio_iec = b.ratio_iec ∧
    (adjust_enforcement_agents enf b d).1.ratio_enf = b.ratio_enf ∧
    (adjust_enforcement_agents enf b d).1.ratio_inc = b.ratio_inc := by
  simp [adjust_enforcement_agents]

/-- A zone that goes through `update_policy` with a zero top-up and
then staffing adjustment carries exactly its local-baseline funds. -/
theorem zone_zero_baseline (b : Barangay) (enf : List ℕ) (d : ℚ) :
    (adjust_enforcement_agents enf (update_policy b 0 0 0) d).1.iec_fund =
      (adjust_enforcement_agents enf (update_policy b 0 0 0) d).1.local_quarterly_budget *
        (adjust_enforcement_agents enf (update_policy b 0 0 0) d).1.ratio_iec ∧
    (adjust_enforcement_agents enf (update_policy b 0 0 0) d).1.enf_fund =
      (adjust_enforcement_agents enf (update_policy b 0 0 0) d).1.local_quarterly_budget *
        (adjust_enforcement_agents enf (update_policy b 0 0 0) d).1.ratio_enf ∧
    (adjust_enforcement_agents enf (update_policy b 0 0 0) d).1.inc_fund =
      (adjust_enforcement_agents enf (update_policy b 0 0 0) d).1.local_quarterly_budget *
        (adjust_enforcement_agents enf (update_policy b 0 0 0) d).1.ratio_inc := by
  simp [adjust_enforcement_agents, update_policy]

/-- The per-zone baseline property propagated through the 21-length
loop when every scaled desire is zero. -/
theorem processZones21_baseline (action : List ℚ) (scale : ℚ)
    (hz : ∀ j, action.getD j 0 * scale = 0) :
    ∀ (i : ℕ) (bs : List Barangay) (draws : List ℚ) (enf : List ℕ),
      ∀ b1 ∈ (processZones21 action scale i bs draws enf).1,
        b1.iec_fund = b1.local_quarterly_budget * b1.ratio_iec ∧
        b1.enf_fund = b1.local_quarterly_budget * b1.ratio_enf ∧
        b1.inc_fund = b1.local_quarterly_budget * b1.ratio_inc := by
  intro i bs
  induction bs generalizing i with
  | nil =>
    intro draws enf b1 hb1
    simp [processZones21] at hb1
  | cons b bs ih =>
    intro draws enf b1 hb1
    simp only [processZones21, hz (i * 3), hz (i * 3 + 1), hz (i * 3 + 2)] at hb1
    have hcap : (0 : ℚ) ≤ (b.n_households : ℚ) * 600.0 :=
      mul_nonneg (Nat.cast_nonneg b.n_households) (by norm_num)
    rw [if_neg (by push_neg; linarith)] at hb1
    rcases List.mem_cons.mp hb1 with h | h
    · subst h
      exact zone_zero_baseline b enf (draws.getD 0 0)
    · exact ih (i + 1) (draws.drop 1) _ b1 h

/-- The per-zone baseline property propagated through the 3-length
loop when all three global allocations are zero. -/
theorem processZones3_zero (allNeedy : Bool) (tn nc : ℕ) :
    ∀ (bs : List Barangay) (draws : List ℚ) (enf : List ℕ),
      ∀ b1 ∈ (processZones3 allNeedy 0 0 0 tn nc bs draws enf).1,
        b1.iec_fund = b1.local_quarterly_budget * b1.ratio_iec ∧
        b1.enf_fund = b1.local_quarterly_budget * b1.ratio_enf ∧
        b1.inc_fund = b1.local_quarterly_budget * b1.ratio_inc := by
  intro bs
  induction bs with
  | nil =>
    intro draws enf b1 hb1
    simp [processZones3] at hb1
  | cons b bs ih =>
    intro draws enf b1 hb1
    simp only [processZones3, zero_mul, if_pos, if_neg] at hb1
    have hsame :
        (if allNeedy || decide (b.compliance_rate < 0.80) then
          update_policy b 0 0 0
        else update_policy b 0 0 0) = update_policy b 0 0 0 := by
      split_ifs <;> rfl
    rw [hsame] at hb1
    rcases List.mem_cons.mp hb1 with h | h
    · subst h
      exact zone_zero_baseline b enf (draws.getD 0 0)
    · exact ih (draws.drop 1) _ b1 h

/-- Claim C6: a decision vector summing to zero yields a zero scale
factor, and applying it leaves every zone with exactly its
local-baseline funds (local quarterly budget times its local
allocation ratios), with no LGU top-up. -/
theorem C6_zero_desire (m : ModelState) (action draws : List ℚ)
    (hlen : action.length = 3 ∨ action.length = 21) (hsum : action.sum = 0) :
    scale_factor m.quarterly_budget action.sum = 0 ∧
    ∀ b1 ∈ (apply_action m action draws).barangays,
      b1.iec_fund = b1.local_quarterly_budget * b1.ratio_iec ∧
      b1.enf_fund = b1.local_quarterly_budget * b1.ratio_enf ∧
      b1.inc_fund = b1.local_quarterly_budget * b1.ratio_inc := by
  have hsf : scale_factor m.quarterly_budget action.sum = 0 := by
    simp [scale_factor, hsum]
  refine ⟨hsf, ?_⟩
  rcases hlen with h3 | h21
  · have happ : apply_action m action draws = apply_action3 m 0 0 0 draws := by
      simp [apply_action, h3, hsf]
    rw [happ]
    simp only [apply_action3]
    intro b1 hb1
    exact processZones3_zero _ _ _ _ _ _ b1 hb1
  · have happ : apply_action m action draws = apply_action21 m action 0 draws := by
      simp [apply_action, h21, hsf]
    rw [happ]
    simp only [apply_action21]
    intro b1 hb1
    exact processZones21_baseline action 0 (fun j => mul_zero _) 0 m.barangays draws
      m.enforcers b1 hb1

/-- Witness for C6 at a concrete one-zone model with the zero length-3
vector. -/
theorem C6_zero_desire_witness :
    scale_factor mB.quarterly_budget ([(0 : ℚ), 0, 0]).sum = 0 ∧
    ∀ b1 ∈ (apply_action mB [0, 0, 0] []).barangays,
      b1.iec_fund = b1.local_quarterly_budget * b1.ratio_iec ∧
      b1.enf_fund = b1.local_quarterly_budget * b1.ratio_enf ∧
      b1.inc_fund = b1.local_quarterly_budget * b1.ratio_inc :=
  C6_zero_desire mB [0, 0, 0] [] (Or.inl rfl) (by simp)

/-- Indexing into an elementwise-scaled vector scales the indexed
entry (the default 0 also scales). -/
theorem getD_map_mul (k : ℚ) (l : List ℚ) (j : ℕ) :
    (l.map (fun a => k * a)).getD j 0 = k * l.getD j 0 := by
  induction l generalizing j with
  | nil => simp
  | cons x xs ih =>
    cases j with
    | zero => simp
    | succ n => simpa using ih n

/-- The sum of an elementwise-scaled vector. -/
theorem sum_map_mul (k : ℚ) (l : List ℚ) :
    (l.map (fun a => k * a)).sum = k * l.sum := by
  induction l with
  | nil => simp
  | cons x xs ih => simp [ih, mul_add]

/-- Scaling desire and total desire together cancels in the allocated
amount. -/
theorem scale_factor_mul (k qb S a : ℚ) (hk : 0 < k) :
    (k * a) * scale_factor qb (k * S) = a * scale_factor qb S := by
  by_cases hS : S > 0
  · have hkS : k * S > 0 := mul_pos hk hS
    simp only [scale_factor, if_pos hS, if_pos hkS]
    have hk0 : k ≠ 0 := ne_of_gt hk
    have hS0 : S ≠ 0 := ne_of_gt hS
    field_simp
    ring
  · have hkS : ¬ (k * S > 0) := fun h => hS (by nlinarith)
    simp only [scale_factor, if_neg hS, if_neg hkS]
    ring

/-- The 21-length loop depends on the action vector and scale factor
only through the per-index scaled desires. -/
theorem processZones21_congr (act1 act2 : List ℚ) (s1 s2 : ℚ)
    (h : ∀ j, act1.getD j 0 * s1 = act2.getD j 0 * s2) :
    ∀ (i : ℕ) (bs : List Barangay) (draws : List ℚ) (enf : List ℕ),
      processZones21 act1 s1 i bs draws enf = processZones21 act2 s2 i bs draws enf := by
  intro i bs
  induction bs generalizing i with
  | nil => intro draws enf; rfl
  | cons b bs ih =>
    intro draws enf
    simp only [processZones21, h (i * 3), h (i * 3 + 1), h (i * 3 + 2), ih (i + 1)]

/-- Claim C7: scaling the policy decision vector elementwise by a
positive constant produces the identical resulting model state (in
particular the identical per-zone fund allocation). -/
theorem C7_scale_invariance (m : ModelState) (action draws : List ℚ) (k : ℚ)
    (hk : 0 < k) (hpos : ∀ a ∈ action, 0 ≤ a) :
    apply_action m (action.map (fun a => k * a)) draws = apply_action m action draws := by
  have hlen : (action.map (fun a => k * a)).length = action.length := List.length_map _ _
  have hsum : (action.map (fun a => k * a)).sum = k * action.sum := sum_map_mul k action
  have hprod : ∀ j, (action.map (fun a => k * a)).getD j 0 *
      scale_factor m.quarterly_budget (action.map (fun a => k * a)).sum =
      action.getD j 0 * scale_factor m.quarterly_budget action.sum := by
    intro j
    rw [getD_map_mul, hsum]
    exact scale_factor_mul k m.quarterly_budget action.sum (action.getD j 0) hk
  by_cases h21 : action.length = 21
  · rw [apply_action, apply_action, if_pos (by rw [hlen]; exact h21), if_pos h21]
    simp only [apply_action21]
    rw [processZones21_congr _ _ _ _ hprod 0 m.barangays draws m.enforcers]
  · by_cases h3 : action.length = 3
    · rw [apply_action, apply_action, if_neg (by rw [hlen]; exact h21), if_neg h21,
        if_pos (by rw [hlen]; exact h3), if_pos h3, hprod 0, hprod 1, hprod 2]
    · rw [apply_action, apply_action, if_neg (by rw [hlen]; exact h21), if_neg h21,
        if_neg (by rw [hlen]; exact h3), if_neg h3]

/-- Witness for C7 with k = 2 on a concrete length-3 vector. -/
theorem C7_scale_invariance_witness :
    apply_action mB ([(1 : ℚ), 2, 3].map (fun a => 2 * a)) [] =
      apply_action mB [1, 2, 3] [] :=
  C7_scale_invariance mB [1, 2, 3] [] 2 (by norm_num)
    (by intro a ha; fin_cases ha <;> norm_num)

/-- An entry of the mixed `RandomActivation` schedule, restricted to
the single-zone instance relevant to the ordering claim: the zone
agent itself or a household by index (`BacolodModel.__init__` adds the
BarangayAgent and every HouseholdAgent to the same schedule). -/
inductive SchedAgent where
  | zoneAg : SchedAgent
  | hhAg : ℕ → SchedAgent
  deriving DecidableEq

/-- The bundle of random draws consumed by one household step, plus
its neighbour-compliance input (a spatial query in the source). -/
structure HHRand where
  r1 : ℚ
  r2 : ℚ
  local_compliance : ℚ
  eps : ℚ
  err : ℚ
  draw : ℚ

/-- One-zone model state for `BacolodModel.step`: the households, the
zone record, the incentive counter, and a log of the zone
compliance-rate value each household observed during its step. -/
structure Zone1State where
  hhs : List Household
  zone : Barangay
  total_incentives : ℚ
  reads : List (ℕ × ℚ)

/-- `BarangayAgent.step`: refresh the zone's compliance statistics
from the current household flags. -/
def zoneStep (s : Zone1State) : Zone1State :=
  { s with zone := refresh_compliance s.hhs s.zone }

/-- `HouseholdAgent.step`: update_attitude, update_social_norms,
make_decision, attempt_redemption, all reading the zone's current
compliance snapshot, which is also logged. -/
def hhStep (i : ℕ) (r : HHRand) (s : Zone1State) : Zone1State :=
  match s.hhs[i]? with
  | none => s
  | some hh =>
    let hh1 := update_attitude hh s.zone.compliance_rate s.zone.iec_intensity
        s.zone.enforcement_intensity r.r1 r.r2
    let hh2 := update_social_norms hh1 r.local_compliance
        s.zone.enforcement_intensity s.zone.compliance_rate
    let hh3 := make_decision hh2 s.zone r.eps r.err
    let red := attempt_redemption hh3 s.zone r.draw s.total_incentives
    { s with hhs := s.hhs.set i red.1, zone := red.2.1,
             total_incentives := red.2.2,
             reads := s.reads ++ [(i, s.zone.compliance_rate)] }

/-- One activation inside `RandomActivation.step`. -/
def stepAgent (rs : ℕ → HHRand) (s : Zone1State) (a : SchedAgent) : Zone1State :=
  match a with
  | SchedAgent.zoneAg => zoneStep s
  | SchedAgent.hhAg i => hhStep i (rs i) s

/-- One tick of `BacolodModel.step` restricted to the agent updates:
the explicit pre-pass `for b in self.barangays: b.step()` followed by
`self.schedule.step()` over a shuffled order of ALL scheduled agents,
the zone agent included. -/
def modelTick (order : List SchedAgent) (rs : ℕ → HHRand) (s : Zone1State) : Zone1State :=
  List.foldl (stepAgent rs) (zoneStep s) order

/-- Household used in the C3 scenario: weights picked so its decision
is compliant regardless of attitude and norm. -/
def hh3a : Household :=
  { income_level := 2, is_compliant := false, barangay_id := 1,
    w_a := 0, w_sn := 0, w_pbc := 1, c_effort_base := 0.2,
    attitude_decay_rate := 0, attitude := 0.3, sn := 0.3, pbc := 0.9,
    utility := 0, redeemed_this_quarter := true }

/-- Zone used in the C3 scenario (stale stored compliance rate 0.37,
no enforcement, no incentives). -/
def bZ3 : Barangay :=
  { bC4 with enforcement_intensity := 0, incentive_val := 0, n_households := 2,
             compliance_rate := 0.37 }

/-- Initial one-zone state with two identical non-compliant
households. -/
def s3 : Zone1State := { hhs := [hh3a, hh3a], zone := bZ3, total_incentives := 0, reads := [] }

/-- Deterministic draw bundle for the C3 scenario. -/
def rs3 : ℕ → HHRand :=
  fun _ => { r1 := 0, r2 := 0, local_compliance := 0, eps := 0, err := 1/2, draw := 1 }

/-- A legal shuffle of the schedule in which the zone agent activates
between the two households. -/
def ord3 : List SchedAgent := [SchedAgent.hhAg 0, SchedAgent.zoneAg, SchedAgent.hhAg 1]

/-- Claim C3 as stated is false: `ord3` is a permutation the
randomized scheduler can produce, the previous-tick snapshot is 0, yet
household 1 observes compliance rate 1/2 during its decision step,
because household 0 became compliant and the zone agent (also in the
schedule) re-refreshed the statistics mid-tick. -/
theorem C3_counterexample :
    List.Perm ord3 [SchedAgent.zoneAg, SchedAgent.hhAg 0, SchedAgent.hhAg 1] ∧
    (refresh_compliance s3.hhs s3.zone).compliance_rate = 0 ∧
    (modelTick ord3 rs3 s3).reads = [(0, 0), (1, 1/2)] := by
  refine ⟨List.Perm.swap SchedAgent.zoneAg (SchedAgent.hhAg 0) [SchedAgent.hhAg 1], ?_, ?_⟩
  · norm_num [refresh_compliance, s3, hh3a, bZ3, bC4]
  · norm_num [modelTick, ord3, rs3, s3, hh3a, bZ3, bC4, zoneStep, hhStep, stepAgent,
      refresh_compliance, update_attitude, update_social_norms, make_decision,
      attempt_redemption, give_reward]

/-- A household activation never writes the zone's compliance rate. -/
theorem hhStep_rate (i : ℕ) (r : HHRand) (s : Zone1State) :
    (hhStep i r s).zone.compliance_rate = s.zone.compliance_rate := by
  unfold hhStep
  cases h : s.hhs[i]? with
  | none => rfl
  | some hh =>
    simp only [attempt_redemption, give_reward]
    split_ifs <;> rfl

/-- Every compliance value a household logs during its activation is
either an older log entry or the zone snapshot current at that
moment. -/
theorem hhStep_reads (i : ℕ) (r : HHRand) (s : Zone1State) :
    ∀ pr ∈ (hhStep i r s).reads, pr ∈ s.reads ∨ pr.2 = s.zone.compliance_rate := by
  unfold hhStep
  cases h : s.hhs[i]? with
  | none => exact fun pr hpr => Or.inl hpr
  | some hh =>
    intro pr hpr
    simp only [List.mem_append, List.mem_singleton] at hpr
    rcases hpr with h1 | h1
    · exact Or.inl h1
    · right
      rw [h1]

/-- As long as the zone agent has not been activated, a run of
household activations preserves the zone's compliance rate and logs
only that unchanged snapshot. -/
theorem foldl_no_zone_reads (rs : ℕ → HHRand) :
    ∀ (l : List SchedAgent) (s : Zone1State),
      (∀ a ∈ l, a ≠ SchedAgent.zoneAg) →
      (List.foldl (stepAgent rs) s l).zone.compliance_rate = s.zone.compliance_rate ∧
      ∀ pr ∈ (List.foldl (stepAgent rs) s l).reads,
        pr ∈ s.reads ∨ pr.2 = s.zone.compliance_rate := by
  intro l
  induction l with
  | nil => exact fun s _ => ⟨rfl, fun pr hpr => Or.inl hpr⟩
  | cons a l ih =>
    intro s h
    have ha : a ≠ SchedAgent.zoneAg := h a (List.mem_cons_self a l)
    cases a with
    | zoneAg => exact absurd rfl ha
    | hhAg i =>
      have hrest := ih (stepAgent rs s (SchedAgent.hhAg i))
        (fun a' ha' => h a' (List.mem_cons_of_mem _ ha'))
      have hrate : (stepAgent rs s (SchedAgent.hhAg i)).zone.compliance_rate =
          s.zone.compliance_rate := hhStep_rate i (rs i) s
      have hreads : ∀ pr ∈ (stepAgent rs s (SchedAgent.hhAg i)).reads,
          pr ∈ s.reads ∨ pr.2 = s.zone.compliance_rate := hhStep_reads i (rs i) s
      refine ⟨?_, ?_⟩
      · rw [List.foldl_cons, hrest.1, hrate]
      · intro pr hpr
        rw [List.foldl_cons] at hpr
        rcases hrest.2 pr hpr with hin | heq
        · rcases hreads pr hin with hin' | heq'
          · exact Or.inl hin'
          · exact Or.inr heq'
        · exact Or.inr (heq.trans hrate)

/-- Claim C3, amended: the tick does refresh all zone statistics in a
dedicated pre-pass before the randomized agent pass, and any household
activated before the zone agent's slot in the shuffled schedule reads
exactly the previous tick's snapshot; but because the zone agent is
itself part of the randomized schedule it can re-refresh the
statistics mid-pass, so households activated after its slot may read a
mid-tick (partly re-decided) snapshot, as the counterexample shows. -/
theorem C3_amended (s : Zone1State) (rs : ℕ → HHRand) (pre post : List SchedAgent)
    (h0 : s.reads = []) (hpre : ∀ a ∈ pre, a ≠ SchedAgent.zoneAg) :
    modelTick (pre ++ post) rs s =
      List.foldl (stepAgent rs) (List.foldl (stepAgent rs) (zoneStep s) pre) post ∧
    (zoneStep s).zone.compliance_rate = (refresh_compliance s.hhs s.zone).compliance_rate ∧
    ∀ pr ∈ (List.foldl (stepAgent rs) (zoneStep s) pre).reads,
      pr.2 = (refresh_compliance s.hhs s.zone).compliance_rate := by
  refine ⟨by simp [modelTick, List.foldl_append], rfl, ?_⟩
  obtain ⟨h1, h2⟩ := foldl_no_zone_reads rs pre (zoneStep s) hpre
  intro pr hpr
  rcases h2 pr hpr with hin | heq
  · have : (zoneStep s).reads = s.reads := rfl
    rw [this, h0] at hin
    exact absurd hin (List.not_mem_nil pr)
  · exact heq

/-- Witness for C3_amended: household 0 activated before the zone
agent's slot reads the previous-tick snapshot. -/
theorem C3_amended_witness :
    modelTick ([SchedAgent.hhAg 0] ++ [SchedAgent.zoneAg, SchedAgent.hhAg 1]) rs3 s3 =
      List.foldl (stepAgent rs3)
        (List.foldl (stepAgent rs3) (zoneStep s3) [SchedAgent.hhAg 0])
        [SchedAgent.zoneAg, SchedAgent.hhAg 1] ∧
    (zoneStep s3).zone.compliance_rate = (refresh_compliance s3.hhs s3.zone).compliance_rate ∧
    ∀ pr ∈ (List.foldl (stepAgent rs3) (zoneStep s3) [SchedAgent.hhAg 0]).reads,
      pr.2 = (refresh_compliance s3.hhs s3.zone).compliance_rate :=
  C3_amended s3 rs3 [SchedAgent.hhAg 0] [SchedAgent.zoneAg, SchedAgent.hhAg 1] rfl
    (by intro a ha; fin_cases ha; simp)
